import Mathlib

/-!
Verification development for the MEV-Shield server core
(Express + SQLite + socket.io backend, file `server.js`).

The embedding translates the server source into Lean:
JavaScript values that can reach the request handlers are modelled by
`JSValue` with JavaScript truthiness; the Gemini SDK, its network call and
the JSON decoding performed by the runtime are modelled as an environment
(`GeminiEnv`) supplying the outcome of each external step, while all
control flow of `geminiRiskAnalyzer` itself is translated literally; the
SQLite table `protected_trades` is modelled as an append-only list of
records with an AUTOINCREMENT counter; socket.io emission is modelled as
the list of messages a session receives.
-/

namespace MevShield

/-- A JavaScript value as it can arrive in `req.body.rawTransaction`:
a string, `null`, `undefined` (field absent), a number, or a boolean. -/
inductive JSValue where
  | vStr (s : String)
  | vNull
  | vUndefined
  | vNum (n : Int)
  | vBool (b : Bool)
deriving DecidableEq, Repr

/-- JavaScript truthiness, as tested by `if (!rawTransaction)`:
the empty string, `null`, `undefined`, `0` and `false` are falsy. -/
def truthy : JSValue → Bool
  | .vStr s => s ≠ ""
  | .vNull => false
  | .vUndefined => false
  | .vNum n => n ≠ 0
  | .vBool b => b

/-- The object shape `geminiRiskAnalyzer` returns: a JavaScript object whose
three fields of interest may each be present (`some`) or `undefined`
(`none`), since the code returns `JSON.parse(response.text)` unchecked. -/
structure RiskAssessment where
  riskScore : Option String
  attackType : Option String
  rationale : Option String
deriving DecidableEq, Repr

/-- Fallback returned when the Gemini SDK is not initialized
(lines 135-139 of the server source). -/
def fallbackUnavailable : RiskAssessment :=
  { riskScore := some "50/100"
    attackType := some "AI Unavailable"
    rationale := some "Gemini API key missing or SDK not initialized. Using fallback analysis." }

/-- Fallback returned from the `catch` block on an API error or a JSON
parse error (lines 156-160 of the server source). -/
def fallbackApiError : RiskAssessment :=
  { riskScore := some "50/100"
    attackType := some "API Error/Unknown MEV"
    rationale := some "AI risk analysis failed due to API error/quota limit. Proceed with caution." }

/-- Prompt built for inputs starting with `0xTx` (line 125). -/
def mockAttackPrompt (tradeData : String) : String :=
  "Simulate an MEV attack scenario targeting a typical raw transaction like " ++ tradeData ++
  ". Provide a JSON object with: \x7b \"riskScore\": \"X/100\", \"attackType\": \"A single MEV type (Sandwich Attack, Front-Run, Liquidation Attack, Arbitrage Exploitation)\", \"rationale\": \"Brief, technical rationale for why this attack type is likely.\" \x7d"

/-- Prompt built for free-text trade descriptions (line 128). -/
def descriptionPrompt (tradeData : String) : String :=
  "Analyze the potential MEV risk for this transaction description: \"" ++ tradeData ++
  "\". Assume this is a DEX trade. Output a JSON object with: \x7b \"riskScore\": \"X/100\", \"attackType\": \"The most likely MEV type this trade attracts\", \"rationale\": \"Brief analysis of the risk and potential value impact.\" \x7d"

/-- The prompt selection of lines 123-129. -/
def promptFor (tradeData : String) : String :=
  if tradeData.startsWith "0xTx" then mockAttackPrompt tradeData
  else descriptionPrompt tradeData

/-- Environment abstracting the pieces outside the server source:
whether the guarded SDK handle is usable
(`ai && ai.models && ai.models.generateContent`), the outcome of the
single `generateContent` network exchange for a given prompt
(`Except.error` = the awaited call threw), and the outcome of
`JSON.parse` on a given response text projected onto the three fields the
callers read (`none` = the parse threw). -/
structure GeminiEnv where
  configured : Bool
  call : String → Except String String
  parseJson : String → Option RiskAssessment

/-- Translation of `geminiRiskAnalyzer` (lines 119-162): choose the
prompt from the input shape; if the SDK is not configured return the
unavailable fallback; otherwise make the call, parse its text, and return
the parsed object unchecked; any thrown error lands in the `catch` and
yields the API-error fallback. -/
def geminiRiskAnalyzer (env : GeminiEnv) (tradeData : String) : RiskAssessment :=
  if env.configured = false then fallbackUnavailable
  else
    match env.call (promptFor tradeData) with
    | .error _ => fallbackApiError
    | .ok text =>
      match env.parseJson text with
      | none => fallbackApiError
      | some v => v

/-- One row of the SQLite table `protected_trades` (schema lines 55-61):
AUTOINCREMENT id, the submitted raw transaction value, the synthesized
relay hash, the fixed status label, and the insert-time timestamp that
SQLite fills in via DEFAULT CURRENT_TIMESTAMP. -/
structure ProtectedTradeRecord where
  id : Nat
  raw_tx : JSValue
  protection_relay_tx_hash : String
  status : String
  submitted_at : String
deriving DecidableEq, Repr

/-- The SQLite store: the rows of `protected_trades` in insertion order,
plus the AUTOINCREMENT counter (the next id to assign). -/
structure Store where
  records : List ProtectedTradeRecord
  nextId : Nat
deriving DecidableEq, Repr

/-- A freshly initialized store: no rows, AUTOINCREMENT starts at 1. -/
def initStore : Store := { records := [], nextId := 1 }

/-- The JSON responses `/api/protect` can produce (lines 197-222):
a 400 client error, a 500 database error, or the success payload carrying
`message`, `txHash` and `dbId` (= `this.lastID`). -/
inductive ProtectResponse where
  | clientError (message : String)
  | dbError (message : String)
  | ok (message : String) (txHash : String) (dbId : Nat)
deriving DecidableEq, Repr

/-- HTTP status code attached to each response shape
(`res.status(400)`, `res.status(500)`, default 200). -/
def ProtectResponse.statusCode : ProtectResponse → Nat
  | .clientError _ => 400
  | .dbError _ => 500
  | .ok _ _ _ => 200

/-- Translation of the `/api/protect` handler (lines 197-222).
`mockTxHash` is the random token computed on line 201 before validation;
`dbErr` is whether the single `db.run` INSERT fails; `now` is the
timestamp SQLite assigns. Returns the store after the request, the number
of INSERT attempts made, and the HTTP response. The handler rejects falsy
`rawTransaction` before touching the database; otherwise it attempts
exactly one INSERT, answering 500 on failure (store unchanged) and the
success payload (with the assigned rowid) on success. -/
def protectHandler (st : Store) (dbErr : Bool) (mockTxHash : String) (now : String)
    (rawTransaction : JSValue) : Store × Nat × ProtectResponse :=
  if truthy rawTransaction = false then
    (st, 0, .clientError "Raw transaction data is required.")
  else if dbErr then
    (st, 1, .dbError "Database error while logging trade.")
  else
    let r : ProtectedTradeRecord :=
      { id := st.nextId
        raw_tx := rawTransaction
        protection_relay_tx_hash := mockTxHash
        status := "Submitted_Protected"
        submitted_at := now }
    ({ records := st.records ++ [r], nextId := st.nextId + 1 }, 1,
      .ok "Trade successfully logged to Private MEV-Protection Relay." mockTxHash st.nextId)

/-- One request to `/api/protect`: whether its INSERT fails, the random
hash, the timestamp, and the submitted value. -/
structure ProtectInput where
  dbErr : Bool
  mockTxHash : String
  now : String
  rawTransaction : JSValue

/-- The store after serving a sequence of `/api/protect` requests,
starting from a freshly initialized store. -/
def runProtects (inputs : List ProtectInput) : Store :=
  inputs.foldl
    (fun st i => (protectHandler st i.dbErr i.mockTxHash i.now i.rawTransaction).1)
    initStore

/-- The fixed set of attack categories (line 40). -/
def MEV_ATTACK_TYPES : List String :=
  ["Sandwich Attack", "Front-Run", "Arbitrage Exploitation", "Liquidation Attack"]

/-- The static protection flag (line 41). -/
def PRIVATE_MEMPOOL_ENABLED : Bool := true

/-- One broadcast event of the live feed (`generateLocalAttack`,
lines 167-182). -/
structure AttackEvent where
  id : Nat
  transaction : String
  method : String
  value : String
  riskScore : String
  rationale : String
  status : String
  timestamp : String
deriving DecidableEq, Repr

/-- The values the JavaScript runtime supplies to one
`generateLocalAttack` call: `Math.random().toString(16).slice(2, 10)` and
`Date.now().toString().slice(-4)` as opaque fragments, the exact
`Math.random()` draws used for the method index and the risk score
(reals in [0,1), modelled as rationals), the formatted
`(Math.random() * 15 + 1).toFixed(4)` string, and
`new Date().toLocaleTimeString()`. -/
structure GenEnv where
  hexFrag : String
  timeFrag : String
  methodRand : ℚ
  valueStr : String
  riskRand : ℚ
  timeStr : String

/-- The risk-score number of line 177:
`Math.floor(Math.random() * 50) + 50`. -/
def riskScoreNum (r : ℚ) : Int := Int.floor (r * 50) + 50

/-- Translation of `generateLocalAttack` (lines 167-182): increments the
process-wide `attackCounter` and builds the event from the randomness in
`env`. Returns the new counter value together with the event. -/
def generateLocalAttack (attackCounter : Nat) (env : GenEnv) : Nat × AttackEvent :=
  let c := attackCounter + 1
  let rawTxMock := "0xTx" ++ env.hexFrag ++ env.timeFrag
  let attackMethod := MEV_ATTACK_TYPES.getD (Int.floor (env.methodRand * 4)).toNat ""
  (c,
    { id := c
      transaction := rawTxMock.take 10 ++ "..."
      method := attackMethod
      value := env.valueStr ++ " ETH"
      riskScore := toString (riskScoreNum env.riskRand) ++ "/100"
      rationale := "Locally simulated. Attacker is monitoring " ++ attackMethod ++ " opportunities."
      status := "Local Simulation"
      timestamp := env.timeStr })

/-- N successive `generateLocalAttack` calls from a given counter value,
one environment per call; returns the final counter and the events in
emission order. -/
def generateMany : Nat → List GenEnv → Nat × List AttackEvent
  | c, [] => (c, [])
  | c, env :: envs =>
    let g := generateLocalAttack c env
    let rest := generateMany g.1 envs
    (rest.1, g.2 :: rest.2)

/-- A message emitted to one socket.io session: the event name and its
payload (the STATUS payload is `\x7b message \x7d`; the live-feed payload
is an `AttackEvent`). -/
inductive SocketPayload where
  | statusMsg (message : String)
  | attackEvent (a : AttackEvent)
deriving DecidableEq, Repr

/-- An emitted socket.io message. -/
structure SocketMsg where
  event : String
  payload : SocketPayload
deriving DecidableEq, Repr

/-- The status text of line 109, derived from the static flag. -/
def statusMessage : String :=
  "Connected to MEV-Shield server. Private Mempool Status: " ++
  (if PRIVATE_MEMPOOL_ENABLED then "Active (private mempool)" else "Inactive") ++ "."

/-- The messages the connection handler (lines 98-110) emits to a newly
connected session: exactly the one STATUS message. -/
def onConnectionEmits : List SocketMsg :=
  [{ event := "STATUS", payload := .statusMsg statusMessage }]

/-- The message `broadcastAttack` (lines 185-192) sends to every
connected session via `io.emit`. -/
def broadcastEmit (a : AttackEvent) : SocketMsg :=
  { event := "new_attack", payload := .attackEvent a }

/-- Everything a session receives over its lifetime: the connection-time
emissions followed by one `new_attack` message per broadcast that happens
while it is connected. -/
def sessionMessages (broadcastsWhileConnected : List AttackEvent) : List SocketMsg :=
  onConnectionEmits ++ broadcastsWhileConnected.map broadcastEmit

/-- Observable outcome of server startup (lines 44-78 and 291-293):
the console log lines, whether the `--init-db` branch closed the database
and exited, and whether `server.listen` was reached (the routes are
registered unconditionally, so listening is exactly accepting requests,
submissions included). -/
structure StartupOutcome where
  logs : List String
  exited : Bool
  listening : Bool
deriving DecidableEq, Repr

/-- Log line of the `new sqlite3.Database` callback (lines 45-51):
`connectErr` is the error the driver reports, if any. The error is only
logged; it does not alter control flow. -/
def dbOpenLog (connectErr : Option String) : String :=
  match connectErr with
  | some m => "Database connection error: " ++ m
  | none => "Connected to the SQLite database."

/-- Log line of the CREATE TABLE callback inside `initDb` (lines 61-64). -/
def initDbLog (tableErr : Option String) : String :=
  match tableErr with
  | some m => "Error creating table: " ++ m
  | none => "Database table \x27protected_trades\x27 initialized."

/-- Translation of the startup sequence: the database handle is opened
(its callback only logs), `initDb` runs (its callback only logs, except
that with `--init-db` it closes the database and exits before any server
is created), and otherwise the app, routes and socket.io server are set
up and `server.listen` is called unconditionally. -/
def startServer (connectErr : Option String) (tableErr : Option String)
    (initDbArg : Bool) : StartupOutcome :=
  let logs := [dbOpenLog connectErr, initDbLog tableErr]
  if initDbArg then
    { logs := logs, exited := true, listening := false }
  else
    { logs := logs ++ ["Server is running on http://localhost:3001"]
      exited := false
      listening := true }

/-- State of the SQLite schema: which tables exist. -/
structure DbState where
  tables : List String
deriving DecidableEq, Repr

/-- Semantics of a CREATE TABLE statement: with IF NOT EXISTS it is a
no-op on an existing table; without, it errors on an existing table. -/
def createTable (ifNotExists : Bool) (name : String) (s : DbState) :
    Except String DbState :=
  if s.tables.contains name then
    if ifNotExists then .ok s
    else .error ("table " ++ name ++ " already exists")
  else .ok { tables := s.tables ++ [name] }

/-- Translation of the schema work of `initDb` (lines 53-71): one
`CREATE TABLE IF NOT EXISTS protected_trades (...)` statement. -/
def initDb (s : DbState) : Except String DbState :=
  createTable true "protected_trades" s

/-! ### Concrete environments used to evaluate the analyzer -/

/-- Environment with no API key: the SDK handle stays null. -/
def envOffline : GeminiEnv :=
  { configured := false, call := fun _ => .error "offline", parseJson := fun _ => none }

/-- Environment where the configured call throws (API error / quota). -/
def envCallFails : GeminiEnv :=
  { configured := true, call := fun _ => .error "quota exceeded", parseJson := fun _ => none }

/-- Environment where the call answers text that `JSON.parse` rejects. -/
def envBadJson : GeminiEnv :=
  { configured := true, call := fun _ => .ok "not json at all", parseJson := fun _ => none }

/-- Environment where the call answers `\x7b\x7d`: valid JSON that decodes
to an object carrying none of the three expected fields. -/
def envEmptyObject : GeminiEnv :=
  { configured := true
    call := fun _ => .ok "\x7b\x7d"
    parseJson := fun _ => some { riskScore := none, attackType := none, rationale := none } }

/-! ### Theorems -/

/-- C1: for every input string, `geminiRiskAnalyzer` returns a value in
every environment; when the service is unconfigured it returns the fixed
unavailable fallback, when the configured call throws or its response
fails to parse it returns the fixed error fallback; both fallbacks carry
riskScore 50 (as the string "50/100"), the respective sentinel attack
type, and a non-empty rationale. -/
theorem analyze_never_fails (env : GeminiEnv) (tradeData : String) :
    (env.configured = false →
      geminiRiskAnalyzer env tradeData = fallbackUnavailable) ∧
    (∀ e, env.configured = true → env.call (promptFor tradeData) = .error e →
      geminiRiskAnalyzer env tradeData = fallbackApiError) ∧
    (∀ text, env.configured = true → env.call (promptFor tradeData) = .ok text →
      env.parseJson text = none →
      geminiRiskAnalyzer env tradeData = fallbackApiError) ∧
    fallbackUnavailable.riskScore = some "50/100" ∧
    fallbackApiError.riskScore = some "50/100" ∧
    fallbackUnavailable.attackType = some "AI Unavailable" ∧
    fallbackApiError.attackType = some "API Error/Unknown MEV" ∧
    fallbackUnavailable.rationale.getD "" ≠ "" ∧
    fallbackApiError.rationale.getD "" ≠ "" := by
  refine ⟨?_, ?_, ?_, rfl, rfl, rfl, rfl, by decide, by decide⟩
  · intro h
    simp [geminiRiskAnalyzer, h]
  · intro e hc hcall
    simp [geminiRiskAnalyzer, hc, hcall]
  · intro text hc hcall hp
    simp [geminiRiskAnalyzer, hc, hcall, hp]

/-- Witness for C1: the three degraded paths evaluated on concrete
environments and the empty input string. -/
theorem analyze_never_fails_witness :
    geminiRiskAnalyzer envOffline "" = fallbackUnavailable ∧
    geminiRiskAnalyzer envCallFails "" = fallbackApiError ∧
    geminiRiskAnalyzer envBadJson "" = fallbackApiError :=
  ⟨(analyze_never_fails envOffline "").1 rfl,
   (analyze_never_fails envCallFails "").2.1 "quota exceeded" rfl rfl,
   (analyze_never_fails envBadJson "").2.2.1 "not json at all" rfl rfl rfl⟩

/-- Counterexample to C2: a response that decodes successfully to an
object with none of the three expected fields is returned to the caller
unchanged — it is neither fallback, because the code returns
`JSON.parse(response.text)` without any field validation. -/
theorem analyze_no_validation_counterexample :
    envEmptyObject.parseJson "\x7b\x7d" =
      some { riskScore := none, attackType := none, rationale := none } ∧
    geminiRiskAnalyzer envEmptyObject "swap 1 ETH for DAI" =
      { riskScore := none, attackType := none, rationale := none } ∧
    geminiRiskAnalyzer envEmptyObject "swap 1 ETH for DAI" ≠ fallbackApiError ∧
    geminiRiskAnalyzer envEmptyObject "swap 1 ETH for DAI" ≠ fallbackUnavailable := by
  exact ⟨rfl, rfl, by decide, by decide⟩

/-- C2 amended: when the configured call succeeds and its response
decodes, `geminiRiskAnalyzer` returns the decoded object as-is — no field
validation is performed, so a successfully decoded object missing the
expected fields is passed through to the caller rather than replaced by
the error fallback. -/
theorem analyze_parse_success_passthrough (env : GeminiEnv) (tradeData text : String)
    (v : RiskAssessment) (hc : env.configured = true)
    (hcall : env.call (promptFor tradeData) = .ok text)
    (hp : env.parseJson text = some v) :
    geminiRiskAnalyzer env tradeData = v := by
  simp [geminiRiskAnalyzer, hc, hcall, hp]

/-- Witness for the amended C2: the field-less decoded object is returned
unchanged. -/
theorem analyze_parse_success_passthrough_witness :
    geminiRiskAnalyzer envEmptyObject "swap 1 ETH for DAI" =
      { riskScore := none, attackType := none, rationale := none } :=
  analyze_parse_success_passthrough envEmptyObject "swap 1 ETH for DAI" "\x7b\x7d"
    { riskScore := none, attackType := none, rationale := none } rfl rfl rfl

/-- C3: an empty or absent `rawTransaction` is rejected with the 400
client-input failure, the store is unchanged, and zero INSERT attempts
are made. -/
theorem submit_rejects_empty (st : Store) (dbErr : Bool) (hash now : String)
    (v : JSValue) (h : v = .vStr "" ∨ v = .vUndefined) :
    protectHandler st dbErr hash now v =
      (st, 0, .clientError "Raw transaction data is required.") ∧
    (ProtectResponse.clientError "Raw transaction data is required.").statusCode = 400 := by
  rcases h with rfl | rfl <;> exact ⟨rfl, rfl⟩

/-- Witness for C3: the empty string submission on a fresh store. -/
theorem submit_rejects_empty_witness :
    protectHandler initStore false "0xsim-log-ab12cd34" "2025-01-01 00:00:00" (.vStr "") =
      (initStore, 0, .clientError "Raw transaction data is required.") :=
  (submit_rejects_empty initStore false "0xsim-log-ab12cd34" "2025-01-01 00:00:00"
    (.vStr "") (Or.inl rfl)).1

/-- C10: the rejection test is JavaScript truthiness, so every falsy
`rawTransaction` — empty string, `null`, `undefined`, `0`, `false` — gets
the same client-input failure with zero INSERT attempts, and `undefined`
(absent field), `null`, `0` and `false` are indistinguishable at this
interface. -/
theorem submit_rejects_falsy (st : Store) (dbErr : Bool) (hash now : String)
    (v : JSValue) (h : truthy v = false) :
    protectHandler st dbErr hash now v =
      (st, 0, .clientError "Raw transaction data is required.") ∧
    truthy (.vStr "") = false ∧ truthy .vNull = false ∧ truthy .vUndefined = false ∧
    truthy (.vNum 0) = false ∧ truthy (.vBool false) = false ∧
    protectHandler st dbErr hash now .vUndefined = protectHandler st dbErr hash now .vNull ∧
    protectHandler st dbErr hash now .vUndefined =
      protectHandler st dbErr hash now (.vNum 0) ∧
    protectHandler st dbErr hash now .vUndefined =
      protectHandler st dbErr hash now (.vBool false) := by
  refine ⟨?_, by decide, by decide, by decide, by decide, by decide, rfl, rfl, rfl⟩
  simp [protectHandler, h]

/-- Witness for C10: the falsy number `0` is rejected like an absent
field. -/
theorem submit_rejects_falsy_witness :
    protectHandler initStore false "0xsim-log-ff" "2025-01-01 00:00:00" (.vNum 0) =
      (initStore, 0, .clientError "Raw transaction data is required.") :=
  (submit_rejects_falsy initStore false "0xsim-log-ff" "2025-01-01 00:00:00"
    (.vNum 0) rfl).1

/-- C4: a non-empty `rawTransaction` string makes exactly one INSERT
attempt; if the INSERT fails the response is the 500 storage failure and
the store is unchanged, and if it succeeds the response is the success
payload carrying the synthesized relay token and the store-assigned id,
with the record appended; a storage-failure response occurs exactly when
the INSERT fails. -/
theorem submit_nonempty_one_append (st : Store) (dbErr : Bool) (hash now s : String)
    (h : s ≠ "") :
    (protectHandler st dbErr hash now (.vStr s)).2.1 = 1 ∧
    (dbErr = true →
      protectHandler st dbErr hash now (.vStr s) =
        (st, 1, .dbError "Database error while logging trade.")) ∧
    (dbErr = false →
      protectHandler st dbErr hash now (.vStr s) =
        ({ records := st.records ++
            [{ id := st.nextId, raw_tx := .vStr s, protection_relay_tx_hash := hash,
               status := "Submitted_Protected", submitted_at := now }],
           nextId := st.nextId + 1 }, 1,
         .ok "Trade successfully logged to Private MEV-Protection Relay." hash st.nextId)) ∧
    ((∃ m, (protectHandler st dbErr hash now (.vStr s)).2.2 = .dbError m) ↔ dbErr = true) := by
  have ht : ¬(truthy (JSValue.vStr s) = false) := by simp [truthy, h]
  refine ⟨?_, ?_, ?_, ?_⟩ <;> cases dbErr <;> simp [protectHandler, ht]

/-- Witness for C4: the spec scenario input `0xdeadbeef` on a fresh
store makes exactly one INSERT attempt. -/
theorem submit_nonempty_one_append_witness :
    (protectHandler initStore false "0xsim-log-1a2b3c4d" "2025-01-01 00:00:00"
      (.vStr "0xdeadbeef")).2.1 = 1 :=
  (submit_nonempty_one_append initStore false "0xsim-log-1a2b3c4d" "2025-01-01 00:00:00"
    "0xdeadbeef" (by decide)).1

/-- Store invariant: every persisted row has a truthy raw transaction,
ids are strictly increasing in insertion order, and every id is below the
AUTOINCREMENT counter. -/
def storeInv (st : Store) : Prop :=
  (∀ r ∈ st.records, truthy r.raw_tx = true) ∧
  (st.records.map fun r => r.id).Chain' (· < ·) ∧
  (∀ r ∈ st.records, r.id < st.nextId)

theorem storeInv_init : storeInv initStore := by
  refine ⟨?_, ?_, ?_⟩ <;> simp [initStore]

theorem storeInv_step (st : Store) (i : ProtectInput) (h : storeInv st) :
    storeInv (protectHandler st i.dbErr i.mockTxHash i.now i.rawTransaction).1 := by
  obtain ⟨h1, h2, h3⟩ := h
  by_cases ht : truthy i.rawTransaction = false
  · have hred : (protectHandler st i.dbErr i.mockTxHash i.now i.rawTransaction).1 = st := by
      simp [protectHandler, ht]
    rw [hred]
    exact ⟨h1, h2, h3⟩
  · by_cases he : i.dbErr = true
    · have hred : (protectHandler st i.dbErr i.mockTxHash i.now i.rawTransaction).1 = st := by
        simp [protectHandler, ht, he]
      rw [hred]
      exact ⟨h1, h2, h3⟩
    · have ht' : truthy i.rawTransaction = true := by
        revert ht
        cases truthy i.rawTransaction <;> simp
      have hred : (protectHandler st i.dbErr i.mockTxHash i.now i.rawTransaction).1 =
          ⟨st.records ++ [⟨st.nextId, i.rawTransaction, i.mockTxHash,
            "Submitted_Protected", i.now⟩], st.nextId + 1⟩ := by
        simp [protectHandler, ht, he]
      rw [hred]
      refine ⟨?_, ?_, ?_⟩
      · intro r hr
        rcases List.mem_append.1 hr with hm | hm
        · exact h1 r hm
        · rw [List.mem_singleton.1 hm]
          exact ht'
      · rw [List.map_append]
        refine List.Chain'.append h2 (List.chain'_singleton _) ?_
        intro x hx y hy
        have hxl : x ∈ st.records.map fun r => r.id := by
          obtain ⟨hne, hxe⟩ := List.mem_getLast?_eq_getLast hx
          rw [hxe]
          exact List.getLast_mem hne
        obtain ⟨r, hr, hrx⟩ := List.mem_map.1 hxl
        have hy' : y = st.nextId := by
          have := hy
          simp at this
          omega
        rw [hy', ← hrx]
        exact h3 r hr
      · intro r hr
        rcases List.mem_append.1 hr with hm | hm
        · exact Nat.lt_succ_of_lt (h3 r hm)
        · rw [List.mem_singleton.1 hm]
          exact Nat.lt_succ_self _

theorem storeInv_runProtects (inputs : List ProtectInput) :
    storeInv (runProtects inputs) := by
  suffices hgen : ∀ (l : List ProtectInput) (st : Store), storeInv st →
      storeInv (l.foldl
        (fun st i => (protectHandler st i.dbErr i.mockTxHash i.now i.rawTransaction).1) st) by
    exact hgen inputs initStore storeInv_init
  intro l
  induction l with
  | nil => intro st h; exact h
  | cons i l ih => intro st h; exact ih _ (storeInv_step st i h)

/-- C5: over any lifetime of `/api/protect` requests from a fresh store,
every persisted row has a truthy, non-empty raw transaction; ids are
strictly increasing hence pairwise distinct; and resubmitting the same
non-empty raw transaction twice appends two rows with distinct fresh ids
and the independently synthesized relay hashes of the two requests. -/
theorem store_lifetime_invariants (inputs : List ProtectInput)
    (s hash1 hash2 now1 now2 : String) (h : s ≠ "") :
    (∀ r ∈ (runProtects inputs).records,
      truthy r.raw_tx = true ∧ r.raw_tx ≠ .vStr "") ∧
    ((runProtects inputs).records.map fun r => r.id).Chain' (· < ·) ∧
    ((runProtects inputs).records.map fun r => r.id).Pairwise (· ≠ ·) ∧
    ((protectHandler (protectHandler (runProtects inputs) false hash1 now1 (.vStr s)).1
        false hash2 now2 (.vStr s)).1.records =
      (runProtects inputs).records ++
        [{ id := (runProtects inputs).nextId, raw_tx := .vStr s,
           protection_relay_tx_hash := hash1, status := "Submitted_Protected",
           submitted_at := now1 },
         { id := (runProtects inputs).nextId + 1, raw_tx := .vStr s,
           protection_relay_tx_hash := hash2, status := "Submitted_Protected",
           submitted_at := now2 }]) ∧
    (runProtects inputs).nextId ≠ (runProtects inputs).nextId + 1 := by
  obtain ⟨h1, h2, h3⟩ := storeInv_runProtects inputs
  have ht : ¬(truthy (JSValue.vStr s) = false) := by simp [truthy, h]
  refine ⟨?_, h2, ?_, ?_, by omega⟩
  · intro r hr
    refine ⟨h1 r hr, ?_⟩
    intro hEq
    have := h1 r hr
    rw [hEq] at this
    simp [truthy] at this
  · have := List.chain'_iff_pairwise.1 h2
    exact this.imp Nat.ne_of_lt
  · simp [protectHandler, ht]

/-- Witness for C5: on a fresh store the spec scenario holds — two
submissions of `0xdeadbeef` persist two rows whose ids are 1 and 2. -/
theorem store_lifetime_invariants_witness :
    (protectHandler (protectHandler (runProtects []) false "0xsim-log-h1" "t1"
        (.vStr "0xdeadbeef")).1 false "0xsim-log-h2" "t2" (.vStr "0xdeadbeef")).1.records =
      [{ id := 1, raw_tx := .vStr "0xdeadbeef", protection_relay_tx_hash := "0xsim-log-h1",
         status := "Submitted_Protected", submitted_at := "t1" },
       { id := 2, raw_tx := .vStr "0xdeadbeef", protection_relay_tx_hash := "0xsim-log-h2",
         status := "Submitted_Protected", submitted_at := "t2" }] := by
  have := (store_lifetime_invariants [] "0xdeadbeef" "0xsim-log-h1" "0xsim-log-h2"
    "t1" "t2" (by decide)).2.2.2.1
  simpa [runProtects, initStore] using this

theorem riskScoreNum_band (r : ℚ) (h0 : 0 ≤ r) (h1 : r < 1) :
    50 ≤ riskScoreNum r ∧ riskScoreNum r ≤ 99 := by
  unfold riskScoreNum
  have hfl : (0 : ℤ) ≤ Int.floor (r * 50) := by
    apply Int.floor_nonneg.mpr
    positivity
  have hfu : Int.floor (r * 50) < 50 := by
    apply Int.floor_lt.mpr
    push_cast
    nlinarith
  omega

theorem generateMany_counter (c : Nat) (envs : List GenEnv) :
    (generateMany c envs).1 = c + envs.length := by
  induction envs generalizing c with
  | nil => simp [generateMany]
  | cons e es ih =>
    simp only [generateMany, generateLocalAttack, List.length_cons]
    rw [ih]
    omega

theorem generateMany_map_id (c : Nat) (envs : List GenEnv) :
    ((generateMany c envs).2.map fun a => a.id) = List.range' (c + 1) envs.length := by
  induction envs generalizing c with
  | nil => simp [generateMany]
  | cons e es ih =>
    simp only [generateMany, List.map_cons, List.length_cons, List.range'_succ]
    rw [ih]
    rfl

theorem chain'_lt_range' (s n : Nat) : (List.range' s n).Chain' (· < ·) := by
  cases n with
  | zero => simp
  | succ m =>
    rw [List.range'_succ]
    exact List.chain_lt_range' s m (by decide)

theorem generateMany_risk_band (c : Nat) (envs : List GenEnv)
    (h : ∀ e ∈ envs, 0 ≤ e.riskRand ∧ e.riskRand < 1) :
    ∀ a ∈ (generateMany c envs).2,
      ∃ n : Int, a.riskScore = toString n ++ "/100" ∧ 50 ≤ n ∧ n ≤ 99 := by
  induction envs generalizing c with
  | nil =>
    intro a ha
    simp [generateMany] at ha
  | cons e es ih =>
    intro a ha
    rcases List.mem_cons.1 ha with rfl | ha
    · refine ⟨riskScoreNum e.riskRand, rfl, ?_⟩
      exact riskScoreNum_band e.riskRand (h e (List.mem_cons_self e es)).1
        (h e (List.mem_cons_self e es)).2
    · exact ih (c + 1) (fun x hx => h x (List.mem_cons_of_mem e hx)) a ha

/-- C7: N successive `generateLocalAttack` calls from any counter value
produce events with the consecutive ids counter+1, ..., counter+N —
strictly increasing and pairwise distinct — and, provided each
`Math.random()` draw lies in [0,1), every risk score has numeric part
between 50 and 99 inclusive. -/
theorem generate_ids_and_risk_band (attackCounter : Nat) (envs : List GenEnv)
    (h : ∀ e ∈ envs, 0 ≤ e.riskRand ∧ e.riskRand < 1) :
    (generateMany attackCounter envs).1 = attackCounter + envs.length ∧
    ((generateMany attackCounter envs).2.map fun a => a.id) =
      List.range' (attackCounter + 1) envs.length ∧
    ((generateMany attackCounter envs).2.map fun a => a.id).Chain' (· < ·) ∧
    ((generateMany attackCounter envs).2.map fun a => a.id).Pairwise (· ≠ ·) ∧
    (∀ a ∈ (generateMany attackCounter envs).2,
      ∃ n : Int, a.riskScore = toString n ++ "/100" ∧ 50 ≤ n ∧ n ≤ 99) := by
  have hmap := generateMany_map_id attackCounter envs
  have hchain : ((generateMany attackCounter envs).2.map fun a => a.id).Chain' (· < ·) := by
    rw [hmap]
    exact chain'_lt_range' _ _
  refine ⟨generateMany_counter attackCounter envs, hmap, hchain, ?_,
    generateMany_risk_band attackCounter envs h⟩
  exact (List.chain'_iff_pairwise.1 hchain).imp Nat.ne_of_lt

/-- Witness for C7: two calls from a fresh counter with concrete draws
yield ids 1 and 2. -/
theorem generate_ids_and_risk_band_witness :
    ((generateMany 0
      [{ hexFrag := "a1b2c3d4", timeFrag := "1234", methodRand := 0,
         valueStr := "7.5000", riskRand := 0, timeStr := "10:00:00" },
       { hexFrag := "e5f60718", timeFrag := "5678", methodRand := 1/2,
         valueStr := "2.2500", riskRand := 99/100, timeStr := "10:00:05" }]).2.map
        fun a => a.id) = List.range' 1 2 :=
  (generate_ids_and_risk_band 0
    [{ hexFrag := "a1b2c3d4", timeFrag := "1234", methodRand := 0,
       valueStr := "7.5000", riskRand := 0, timeStr := "10:00:00" },
     { hexFrag := "e5f60718", timeFrag := "5678", methodRand := 1/2,
       valueStr := "2.2500", riskRand := 99/100, timeStr := "10:00:05" }]
    (by intro e he; fin_cases he <;> constructor <;> norm_num)).2.1

/-- C8: schema initialization is idempotent and never fails — for every
schema state there is a result state, and re-running `initDb` on that
result succeeds and leaves it unchanged, because the single statement is
CREATE TABLE IF NOT EXISTS. -/
theorem initDb_idempotent (s : DbState) :
    ∃ t, initDb s = .ok t ∧ initDb t = .ok t := by
  unfold initDb createTable
  by_cases h : "protected_trades" ∈ s.tables
  · refine ⟨s, ?_, ?_⟩ <;> simp [h]
  · refine ⟨⟨s.tables ++ ["protected_trades"]⟩, ?_, ?_⟩ <;> simp [h]

theorem filter_status_of_broadcasts (l : List AttackEvent) :
    ((l.map broadcastEmit).filter fun m => m.event == "STATUS") = [] := by
  induction l with
  | nil => rfl
  | cons a l ih => simp [broadcastEmit, ih]

/-- C9: over a session's whole lifetime, the very first message it
receives is the single STATUS message, that message is the only STATUS
message it ever receives, and its text is derived from the static
`PRIVATE_MEMPOOL_ENABLED` flag. -/
theorem connection_status_once (broadcastsWhileConnected : List AttackEvent) :
    (sessionMessages broadcastsWhileConnected).head? =
      some { event := "STATUS", payload := .statusMsg statusMessage } ∧
    ((sessionMessages broadcastsWhileConnected).filter fun m => m.event == "STATUS") =
      [{ event := "STATUS", payload := .statusMsg statusMessage }] ∧
    statusMessage =
      "Connected to MEV-Shield server. Private Mempool Status: " ++
        (if PRIVATE_MEMPOOL_ENABLED then "Active (private mempool)" else "Inactive") ++ "." := by
  refine ⟨rfl, ?_, rfl⟩
  rw [sessionMessages, List.filter_append, filter_status_of_broadcasts]
  rfl

/-- Counterexample to C6: with the database connection failing at
startup (and no `--init-db` flag), the server still reaches
`server.listen` with its routes registered — the connection error is
merely logged, so the service does accept submissions. -/
theorem startup_db_error_not_fatal_counterexample :
    (startServer (some "SQLITE_CANTOPEN: unable to open database file") none false).listening
      = true ∧
    (startServer (some "SQLITE_CANTOPEN: unable to open database file") none false).exited
      = false ∧
    (startServer (some "SQLITE_CANTOPEN: unable to open database file") none false).logs.head?
      = some "Database connection error: SQLITE_CANTOPEN: unable to open database file" :=
  ⟨rfl, rfl, rfl⟩

/-- C6 amended: a Store connection failure at startup is not fatal — it
is only logged, the server still listens and accepts submissions, and
the unavailability surfaces per request: each attempted append fails and
is answered with the 500 storage-failure result, store unchanged. -/
theorem startup_db_error_only_logged (m : String) (tableErr : Option String)
    (st : Store) (hash now s : String) (h : s ≠ "") :
    (startServer (some m) tableErr false).listening = true ∧
    (startServer (some m) tableErr false).exited = false ∧
    (startServer (some m) tableErr false).logs.head? =
      some ("Database connection error: " ++ m) ∧
    (protectHandler st true hash now (.vStr s)).2.2 =
      .dbError "Database error while logging trade." ∧
    (protectHandler st true hash now (.vStr s)).1 = st := by
  have ht : ¬(truthy (JSValue.vStr s) = false) := by simp [truthy, h]
  refine ⟨rfl, rfl, rfl, ?_, ?_⟩ <;> simp [protectHandler, ht]

/-- Witness for the amended C6: with the store broken, a concrete
submission is accepted and answered with the storage failure. -/
theorem startup_db_error_only_logged_witness :
    (protectHandler initStore true "0xsim-log-aa" "2025-01-01 00:00:00"
      (.vStr "0xdeadbeef")).2.2 = .dbError "Database error while logging trade." :=
  (startup_db_error_only_logged "SQLITE_CANTOPEN: unable to open database file" none
    initStore "0xsim-log-aa" "2025-01-01 00:00:00" "0xdeadbeef" (by decide)).2.2.2.1

end MevShield
